import Mathlib

/-!
Verification development for the `batch_manager` TUI application
(`src/batch_manager/main.py`).

The program is an interactive screen over a remote batch/file service.  The
part relevant to the checked claims is the screen-level state machine:
which view mode is active, which row is resolved, which action buttons are
enabled, and which remote operations and notifications each handler emits.

Shallow embedding conventions:
* The screen's mutable attributes and the queried widgets' relevant
  properties are collected in `ViewState`; each handler of
  `BatchManagerScreen` becomes a function `ViewState → ... → ViewState ×
  List Effect`, where `Effect` records, in program order, the remote calls,
  worker dispatches, filesystem actions and notifications the handler
  performs.
* Remote-gateway results (`openai` client calls) are passed in as explicit
  `Except`/`Option` parameters: `Except.error e` models a raised
  `APIError`/exception with message `e` caught by the handler's
  `try/except`.
* Python string operations are modelled at the character-list level
  (`pyStrip`, `pyStartsWith`, `pyEndsWith`, `sanitizeSlashes`,
  `pySplit1`) so that all definitions evaluate inside the kernel.
* `datetime.fromtimestamp(..).strftime(..)` and the floating-point size
  formatting (`human_readable_bytes`) are external, locale/timezone
  dependent renderings; they are abstracted as the `Env` record of pure
  formatting functions.  No checked claim depends on their output.
* `json.loads` / `json.dumps` (Python standard library, external to the
  screen logic) are abstracted as a parse function `String → Except String J`
  and a serializer `J → String` in `download_output_worker`.
-/

/-! ### Python string primitives, modelled on character lists -/

/-- Boolean test that the first list is an initial segment of the second. -/
def isHeadOf : List Char → List Char → Bool
  | [], _ => true
  | _ :: _, [] => false
  | a :: as, b :: bs => a == b && isHeadOf as bs

/-- Python `s.startswith(pre)`. -/
def pyStartsWith (s pre : String) : Bool := isHeadOf pre.data s.data

/-- Python `s.endswith(suf)`. -/
def pyEndsWith (s suf : String) : Bool := isHeadOf suf.data.reverse s.data.reverse

/-- Python `s.strip()`: drop whitespace from both ends. -/
def pyStrip (s : String) : String :=
  ⟨((s.data.dropWhile Char.isWhitespace).reverse.dropWhile Char.isWhitespace).reverse⟩

/-- Python `file_name.replace("/", "_")` (main.py line 559).  Pattern and
replacement are single characters, so `replace` is a character map. -/
def sanitizeSlashes (s : String) : String :=
  ⟨s.data.map (fun c => if c = '/' then '_' else c)⟩

/-- Python `x or y` for `x : Optional[str]`: `None` and `""` are falsy. -/
def pyOrOpt (x : Option String) (y : String) : String :=
  match x with
  | none => y
  | some s => if s = "" then y else s

/-- Python truthiness of an `Optional[str]` value. -/
def pyTruthyOpt (x : Option String) : Bool :=
  match x with
  | none => false
  | some s => !(s == "")

/-- First-occurrence split: `splitFirstOn sep l` finds the leftmost
occurrence of `sep` in `l` and returns the parts before and after it. -/
def splitFirstOn (sep : List Char) : List Char → Option (List Char × List Char)
  | [] => none
  | c :: rest =>
    if isHeadOf sep (c :: rest) then some ([], (c :: rest).drop sep.length)
    else
      match splitFirstOn sep rest with
      | none => none
      | some (pre, post) => some (c :: pre, post)

/-- Python `s.split(sep, 1)`: at most one split, at the first occurrence.
`none` in the second component means `sep` does not occur in `s`. -/
def pySplit1 (s sep : String) : String × Option String :=
  match splitFirstOn sep.data s.data with
  | none => (s, none)
  | some (pre, post) => (⟨pre⟩, some ⟨post⟩)

/-- Python `s.split("\n")` (no maxsplit), on a character list. -/
def splitOnNl : List Char → List (List Char)
  | [] => [[]]
  | c :: rest =>
    let r := splitOnNl rest
    if c = '\n' then [] :: r
    else (c :: r.headD []) :: r.tail

/-- Association lookup, modelling `configparser` section/key access. -/
def assocLookup {α : Type} : List (String × α) → String → Option α
  | [], _ => none
  | (k, v) :: rest, key => if k = key then some v else assocLookup rest key

/-! ### Data model -/

/-- `self.table_mode`, either `"batches"` or `"files"`. -/
inductive Mode where
  | batches
  | files
deriving DecidableEq, Repr

/-- `b.request_counts` of a retrieved batch. -/
structure RequestCounts where
  completed : Nat
  total : Nat
  failed : Nat
deriving DecidableEq, Repr

/-- The fields of a retrieved batch object read by `retrieve_batch_worker`.
`error_data` lists the messages of `b.errors.data` (empty when `b.errors`
is absent or has no data). -/
structure BatchDetail where
  id : String
  status : String
  endpoint : String
  request_counts : RequestCounts
  input_file_id : Option String
  output_file_id : Option String
  error_data : List String
  created_at : Option Int
  in_progress_at : Option Int
  finalizing_at : Option Int
  completed_at : Option Int
  failed_at : Option Int
  expired_at : Option Int
  cancelling_at : Option Int
  cancelled_at : Option Int
deriving DecidableEq, Repr

/-- The fields of a retrieved file object read by `retrieve_file_worker`. -/
structure FileDetail where
  id : String
  filename : Option String
  purpose : String
  bytes : Nat
  created_at : Int
deriving DecidableEq, Repr

/-- One entry of the `timestamps` list built in `retrieve_batch_worker`:
`{"name": ..., "time": ..., "value": ...}`. -/
structure TSEvent where
  name : String
  time : Int
  value : String
deriving DecidableEq, Repr

/-- The `ProfileSelected` message payload. -/
structure ProfileSelectedMsg where
  profile_name : String
  api_key : String
deriving DecidableEq, Repr

/-- External formatting environment: `strftime fmtSpec epoch` models
`datetime.fromtimestamp(epoch).strftime(fmtSpec)`, and `fmtBytes` models
`human_readable_bytes` (floating-point string formatting). -/
structure Env where
  strftime : String → Int → String
  fmtBytes : Nat → String

/-- Observable actions a handler performs, in program order. -/
inductive Effect where
  | notify (msg : String)
  | errorNotify (msg : String)
  | dispatchListBatches
  | dispatchListFiles
  | dispatchRetrieveBatch (key : String)
  | dispatchRetrieveFile (key : String)
  | apiDeleteFile (file_id : String)
  | apiCreateBatch (endpoint : String) (input_file_id : Option String) (completion_window : String)
  | makeDirs (dir : String)
  | fileWrite (path : String) (lines : List String)
deriving DecidableEq, Repr

/-- The screen's mutable state: its Python attributes plus the relevant
properties of the widgets it mutates via `query_one`. -/
structure ViewState where
  table_mode : Mode
  current_output_file_id : Option String
  current_file_name : Option String
  cached_files : List (String × String)
  current_batch_id : Option String
  table_headers : List String
  table_rows : List (List String × String)
  details_view : String
  btn_download_disabled : Bool
  btn_delete_disabled : Bool
  btn_cancel_disabled : Bool
  btn_action_label : String
deriving DecidableEq, Repr

def BATCH_HEADERS : List String := ["ID", "Status", "Created At"]

def FILE_HEADERS : List String := ["Filename", "Size", "Purpose", "Created At"]

def DOWNLOAD_DIR : String := "downloads"

/-- Screen state after `__init__`, `compose` and the `add_columns` call of
`on_mount` (before the initial `action_list_batches`). -/
def initViewState : ViewState :=
  { table_mode := Mode.batches
    current_output_file_id := none
    current_file_name := none
    cached_files := []
    current_batch_id := none
    table_headers := BATCH_HEADERS
    table_rows := []
    details_view := "Select an item to view details."
    btn_download_disabled := true
    btn_delete_disabled := true
    btn_cancel_disabled := true
    btn_action_label := "Create" }

/-! ### Mode switching (`action_list_batches`, `action_list_files`) -/

/-- `BatchManagerScreen.update_action_button`. -/
def update_action_button (st : ViewState) : ViewState :=
  if st.table_mode = Mode.batches then { st with btn_action_label := "Create" }
  else { st with btn_action_label := "Upload" }

/-- `BatchManagerScreen.action_list_batches`: switch to Batches mode and
dispatch the listing worker.  It disables the delete and cancel buttons
and clears `current_batch_id`, but touches neither the download button nor
`current_output_file_id` / `current_file_name` nor the details view. -/
def action_list_batches (st : ViewState) : ViewState × List Effect :=
  let st1 := { st with
    table_mode := Mode.batches
    table_rows := []
    table_headers := BATCH_HEADERS
    btn_delete_disabled := true
    btn_cancel_disabled := true
    current_batch_id := none }
  (update_action_button st1, [Effect.notify "Loading batches...", Effect.dispatchListBatches])

/-- `BatchManagerScreen.action_list_files`: switch to Files mode and
dispatch the listing worker.  It resets the details view, disables the
cancel button and clears `current_batch_id`, but touches neither the
download nor the delete button nor the derived file id / name. -/
def action_list_files (st : ViewState) : ViewState × List Effect :=
  let st1 := { st with
    table_mode := Mode.files
    table_rows := []
    table_headers := FILE_HEADERS
    btn_cancel_disabled := true
    current_batch_id := none }
  let st2 := update_action_button st1
  ({ st2 with details_view := "Select an item to view details." },
   [Effect.notify "Loading files...", Effect.dispatchListFiles])

/-- `BatchManagerScreen.on_data_table_row_selected`: dispatch the detail
worker for the activated row key, by mode. -/
def on_data_table_row_selected (st : ViewState) (key : String) : Effect :=
  match st.table_mode with
  | Mode.batches => Effect.dispatchRetrieveBatch key
  | Mode.files => Effect.dispatchRetrieveFile key

/-! ### Batch detail resolution (`retrieve_batch_worker`) -/

/-- The `stamp_list` traversal of `retrieve_batch_worker`: field access in
the fixed source order, paired with the label `ts.replace("_at", " ").strip()`
computed on each field name (`"created_at" ↦ "created"`, ...,
`"in_progress_at" ↦ "in_progress"`). -/
def stampFields (b : BatchDetail) : List (String × Option Int) :=
  [("created", b.created_at), ("in_progress", b.in_progress_at),
   ("finalizing", b.finalizing_at), ("completed", b.completed_at),
   ("failed", b.failed_at), ("expired", b.expired_at),
   ("cancelling", b.cancelling_at), ("cancelled", b.cancelled_at)]

/-- The `timestamps` list before sorting: non-`None` fields in `stamp_list`
order, with the rendered `"value"` string. -/
def gatherTimestamps (env : Env) (b : BatchDetail) : List TSEvent :=
  (stampFields b).filterMap
    (fun nt => nt.2.map (fun t => ⟨nt.1, t, env.strftime "%Y-%m-%d %H:%M" t⟩))

/-- Comparison used by `timestamps.sort(key=lambda x: x["time"])`. -/
def tsLe (x y : TSEvent) : Prop := x.time ≤ y.time

instance : DecidableRel tsLe := fun x y => inferInstanceAs (Decidable (x.time ≤ y.time))

instance : IsTotal TSEvent tsLe := ⟨fun x y => Int.le_total x.time y.time⟩

instance : IsTrans TSEvent tsLe := ⟨fun _ _ _ h h' => le_trans h h'⟩

/-- Python `list.sort` is a stable ascending sort; insertion sort with a
total preorder is its executable model. -/
def sortTimestamps (l : List TSEvent) : List TSEvent := List.insertionSort tsLe l

/-- The `text_timestamp` block: one `- value -> name` line per event. -/
def renderTimestampBlock (l : List TSEvent) : String :=
  String.intercalate "\n" (l.map (fun ts => "- " ++ ts.value ++ " -> " ++ ts.name))

/-- Python interpolation of an `Optional[str]` (prints `None` when absent). -/
def optRepr (x : Option String) : String :=
  match x with
  | none => "None"
  | some s => s

/-- The markdown document assembled by `retrieve_batch_worker`. -/
def renderBatchMd (env : Env) (b : BatchDetail) (input_name output_name : Option String) : String :=
  let err := match b.error_data with
    | [] => "None"
    | m :: _ => m
  "\n# BATCH \n`" ++ b.id ++ "`\n\n---\n- **Status**: " ++ b.status ++
  "\n- **Endpoint**: " ++ b.endpoint ++
  "\n\n**Requests**: " ++ toString b.request_counts.completed ++ "/" ++
  toString b.request_counts.total ++ " (failed " ++ toString b.request_counts.failed ++
  ")\n\n📂 **Files**:\n- Input: " ++ optRepr b.input_file_id ++
  "\n  - File Name: " ++ pyOrOpt input_name "N/A" ++
  "\n- Output: " ++ pyOrOpt b.output_file_id "N/A" ++
  "\n  - File Name: " ++ pyOrOpt output_name "N/A" ++
  "\n\n**Errors**: " ++ err ++
  "\n\n---\n⌚ **Timestamps**:\n" ++
  renderTimestampBlock (sortTimestamps (gatherTimestamps env b)) ++ "\n"

/-- `BatchManagerScreen.retrieve_batch_worker`.  `fileMeta i` models the
best-effort `files.retrieve(i).filename` lookups: `none` stands both for a
raised exception (swallowed by the bare `except`) and for an absent
filename.  `gw` is the `batches.retrieve` result; `Except.error` is a
caught `APIError`.  On success the handler updates the details view and
the action eligibility unconditionally — it never compares `b.id` with the
current selection and no generation counter exists in the source. -/
def retrieve_batch_worker (env : Env) (fileMeta : String → Option String)
    (gw : Except String BatchDetail) (st : ViewState) : ViewState × List Effect :=
  match gw with
  | Except.error e => (st, [Effect.errorNotify ("API Error: " ++ e)])
  | Except.ok b =>
    let input_name := match b.input_file_id with
      | none => none
      | some i => if i = "" then none else fileMeta i
    let output_name := match b.output_file_id with
      | none => none
      | some i => if i = "" then none else fileMeta i
    let st1 := { st with details_view := renderBatchMd env b input_name output_name }
    let st2 :=
      if pyTruthyOpt b.output_file_id then
        { st1 with
          btn_download_disabled := false
          current_output_file_id := b.output_file_id
          current_file_name := output_name }
      else
        { st1 with
          btn_download_disabled := true
          current_output_file_id := none
          current_file_name := none }
    ({ st2 with btn_cancel_disabled := false, current_batch_id := some b.id }, [])

/-- The markdown document assembled by `retrieve_file_worker`. -/
def renderFileMd (env : Env) (file_id : String) (f : FileDetail) : String :=
  "\n# FILE\n\n**" ++ pyOrOpt f.filename file_id ++
  "**\n\n- Status: ✅ Ready\n- File ID: " ++ f.id ++
  "\n- Purpose: " ++ f.purpose ++
  "\n- Size: " ++ env.fmtBytes f.bytes ++
  "\n- Created at: " ++ env.strftime "%Y-%m-%d %p %I:%M" f.created_at ++ "\n"

/-- `BatchManagerScreen.retrieve_file_worker`. -/
def retrieve_file_worker (env : Env) (file_id : String)
    (gw : Except String FileDetail) (st : ViewState) : ViewState × List Effect :=
  match gw with
  | Except.error e => (st, [Effect.errorNotify ("API Error: " ++ e)])
  | Except.ok f =>
    ({ st with
        details_view := renderFileMd env file_id f
        btn_download_disabled := false
        btn_delete_disabled := false
        current_output_file_id := some file_id
        current_file_name := some (pyOrOpt f.filename file_id) }, [])

/-! ### Delete flow (`ConfirmDeleteFile`, `delete_file_worker`) -/

/-- `ConfirmDeleteFile.on_button_pressed`: dismiss with `True` exactly for
the `delete` button, `False` otherwise. -/
def confirm_delete_dismiss (button_id : String) : Bool := button_id = "delete"

/-- `BatchManagerScreen.delete_file_worker`, the dismissal continuation of
the confirmation modal.  `gw` is the `files.delete` call result:
`Except.ok deleted` its `.deleted` flag, `Except.error` a caught
exception.  The gateway is only consulted on the confirmed path. -/
def delete_file_worker (st : ViewState) (confirmed : Bool)
    (gw : Except String Bool) : ViewState × List Effect :=
  if !confirmed then (st, [Effect.notify "File deletion cancelled."])
  else
    match st.current_output_file_id with
    | none => (st, [Effect.errorNotify "File ID is not set."])
    | some fid =>
      if fid = "" then (st, [Effect.errorNotify "File ID is not set."])
      else
        let file_name := pyOrOpt st.current_file_name fid
        match gw with
        | Except.error e => (st, [Effect.apiDeleteFile fid, Effect.errorNotify ("Error: " ++ e)])
        | Except.ok deleted =>
          let msgEff :=
            if deleted then Effect.notify ("File " ++ file_name ++ " deleted successfully.")
            else Effect.errorNotify ("Failed to delete file " ++ file_name ++ ".")
          let after := action_list_files st
          (after.1, Effect.apiDeleteFile fid :: msgEff :: after.2)

/-! ### Batch creation (`CreateBatchModal`, `create_batch_worker`) -/

/-- The endpoint choices populated by `CreateBatchModal.on_mount`. -/
def endpointChoices : List String :=
  ["/v1/responses", "/v1/moderations", "/v1/chat/completions", "/v1/embeddings", "/v1/completions"]

/-- Python `x or y` for two strings (`""` is falsy). -/
def pyOrStr (x y : String) : String := if x = "" then y else x

/-- The payload `CreateBatchModal.on_button_pressed` dismisses with when the
`Create` button is pressed: `f"{endpoint}||{fileid}"` where
`endpoint = self.selected_endpoint or "/responses"` and
`fileid = self.selected_file_id or ""`.  `selected_endpoint` is `None`
until an endpoint row is activated. -/
def createModalDismissValue (selected_endpoint : Option String) (selected_file_id : String) : String :=
  pyOrOpt selected_endpoint "/responses" ++ "||" ++ pyOrStr selected_file_id ""

/-- The `payload.split("||", 1)` step of `create_batch_worker`, including
the `except ValueError` fallback `(payload, "")` when `||` is absent. -/
def parseCreatePayload (payload : String) : String × String :=
  match pySplit1 payload "||" with
  | (e, some f) => (e, f)
  | (_, none) => (payload, "")

/-- The endpoint normalisation of `create_batch_worker`:
`endpoint = (endpoint or "").strip()`, then the fallback `"/v1/responses"`
when the stripped value is empty. -/
def resolveEndpoint (e : String) : String :=
  if pyStrip e = "" then "/v1/responses" else pyStrip e

/-- `BatchManagerScreen.create_batch_worker`, the dismissal continuation of
`CreateBatchModal`.  `gw` is the `batches.create` result (`Except.ok bid`
the created batch id rendered by the success notification). -/
def create_batch_worker (st : ViewState) (payload : String)
    (gw : Except String String) : ViewState × List Effect :=
  if payload = "" then (st, [])
  else
    let parsed := parseCreatePayload payload
    let endpoint := resolveEndpoint parsed.1
    let fileid := pyStrip parsed.2
    let createEff := Effect.apiCreateBatch endpoint (if fileid = "" then none else some fileid) "24h"
    match gw with
    | Except.error e =>
      (st, [Effect.notify ("Creating batch (endpoint=" ++ endpoint ++ ")..."), createEff,
            Effect.errorNotify ("Error creating batch: " ++ e)])
    | Except.ok bid =>
      let after := action_list_batches st
      (after.1,
       Effect.notify ("Creating batch (endpoint=" ++ endpoint ++ ")...") :: createEff ::
       Effect.notify ("Batch created: " ++ bid) :: after.2)

/-! ### Download (`download_output_worker`) -/

/-- The output-path computation of `download_output_worker`:
`os.path.join(DOWNLOAD_DIR, file_name.replace("/", "_"))`, then `.jsonl`
appended when the joined path does not already end in `.jsonl`. -/
def pyPathJoin (a b : String) : String :=
  if pyStartsWith b "/" then b
  else if pyEndsWith a "/" then a ++ b
  else a ++ "/" ++ b

def download_out_path (file_name : String) : String :=
  let safe_name := sanitizeSlashes file_name
  let out_path := pyPathJoin DOWNLOAD_DIR safe_name
  if pyEndsWith out_path ".jsonl" then out_path else out_path ++ ".jsonl"

/-- `raw.strip().split("\n")` as a list of strings. -/
def downloadLinesOf (raw : String) : List String :=
  (splitOnNl (pyStrip raw).data).map (fun l => (⟨l⟩ : String))

/-- The list comprehension `[json.loads(l) for l in lines]`: parse each
line in order, propagating the first raised error. -/
def exMapParse {J : Type} (parse : String → Except String J) :
    List String → Except String (List J)
  | [] => Except.ok []
  | l :: ls =>
    match parse l with
    | Except.error e => Except.error e
    | Except.ok o =>
      match exMapParse parse ls with
      | Except.error e => Except.error e
      | Except.ok os => Except.ok (o :: os)

/-- `BatchManagerScreen.download_output_worker`.  `gw` is the fetched and
decoded remote content (`files.content(..).content.decode()`), `parse` and
`ser` abstract `json.loads` / `json.dumps`.  The output file is written
only after every line has parsed; any exception inside the `try` block
(fetch or parse) yields a single error notification and no write. -/
def download_output_worker {J : Type} (parse : String → Except String J) (ser : J → String)
    (st : ViewState) (gw : Except String String) : ViewState × List Effect :=
  match st.current_output_file_id with
  | none => (st, [])
  | some fid =>
    if fid = "" then (st, [])
    else
      let file_name := pyOrOpt st.current_file_name fid
      let out_path := download_out_path file_name
      let pre := [Effect.makeDirs DOWNLOAD_DIR,
                  Effect.notify ("Downloading " ++ file_name ++ "...")]
      match gw with
      | Except.error e => (st, pre ++ [Effect.errorNotify ("Error: " ++ e)])
      | Except.ok raw =>
        match exMapParse parse (downloadLinesOf raw) with
        | Except.error e => (st, pre ++ [Effect.errorNotify ("Error: " ++ e)])
        | Except.ok objs =>
          (st, pre ++ [Effect.fileWrite out_path (objs.map (fun o => ser o ++ "\n")),
                       Effect.notify ("Saved to " ++ out_path)])

/-! ### Credential selection (`KeySelectionScreen.on_list_view_selected`) -/

/-- `KeySelectionScreen.on_list_view_selected` for a chosen profile name.
`config` models the parsed `config.ini` (sections to key/value pairs).
`some msg` means `ProfileSelected` is posted; `none` means the
`KeyError`/`AttributeError` handler showed the inline error and the
selection loop continues. -/
def selectProfile (config : List (String × List (String × String)))
    (profile_name : String) : Option ProfileSelectedMsg :=
  match assocLookup config profile_name with
  | none => none
  | some sect =>
    match assocLookup sect "api_key" with
    | none => none
    | some api_key =>
      if (api_key == "") || !(pyStartsWith api_key "sk-") then none
      else some ⟨profile_name, api_key⟩

/-! ### Helper lemmas -/

/-- Appending `y` behind `x` cannot change an `isHeadOf p` test when no
tail of `p` can start `y` (no match can spill over the boundary). -/
theorem isHeadOf_append_of_stop (y : List Char) :
    ∀ (x p : List Char), (∀ k, k < p.length → isHeadOf (p.drop k) y = false) →
      isHeadOf p (x ++ y) = isHeadOf p x := by
  intro x
  induction x with
  | nil =>
    intro p h
    cases p with
    | nil => rfl
    | cons a p' =>
      exact h 0 (Nat.succ_pos _)
  | cons c x' ih =>
    intro p h
    cases p with
    | nil => rfl
    | cons a p' =>
      show (a == c && isHeadOf p' (x' ++ y)) = (a == c && isHeadOf p' x')
      rw [ih p' (fun k hk => h (k + 1) (Nat.succ_lt_succ hk))]

/-- A sanitized filename never starts with a slash. -/
theorem pyStartsWith_sanitize_slash (s : String) :
    pyStartsWith (sanitizeSlashes s) "/" = false := by
  show isHeadOf "/".data (s.data.map (fun c => if c = '/' then '_' else c)) = false
  cases s.data with
  | nil => rfl
  | cons c cs =>
    show (('/' == if c = '/' then '_' else c) && _) = false
    by_cases h : c = '/'
    · simp [h]
    · have hb : ('/' == c) = false := by
        rw [beq_eq_false_iff_ne]
        exact fun hh => h hh.symm
      simp [h, hb]

/-- Prepending the download directory does not affect the `.jsonl` suffix
test: no tail of `lnosj.` can start the reversed directory prefix. -/
theorem pyEndsWith_dirJoin (s : String) :
    pyEndsWith (DOWNLOAD_DIR ++ "/" ++ s) ".jsonl" = pyEndsWith s ".jsonl" := by
  show isHeadOf ".jsonl".data.reverse ((DOWNLOAD_DIR ++ "/" ++ s).data.reverse) = _
  rw [String.data_append, String.data_append, List.reverse_append]
  exact isHeadOf_append_of_stop _ _ _ (by decide)

/-- If some line of `ls` fails to parse, the whole comprehension raises. -/
theorem exMapParse_error_of_fail {J : Type} (parse : String → Except String J) :
    ∀ ls : List String, (∃ l ∈ ls, ∀ j, parse l ≠ Except.ok j) →
      ∃ e, exMapParse parse ls = Except.error e := by
  intro ls
  induction ls with
  | nil =>
    rintro ⟨l, hl, -⟩
    cases hl
  | cons l ls ih =>
    rintro ⟨m, hm, hfail⟩
    cases hpl : parse l with
    | error e => exact ⟨e, by simp [exMapParse, hpl]⟩
    | ok j =>
      rcases List.mem_cons.mp hm with rfl | hmem
      · exact absurd hpl (hfail j)
      · obtain ⟨e, he⟩ := ih ⟨m, hmem, hfail⟩
        exact ⟨e, by simp [exMapParse, hpl, he]⟩

/-! ### Concrete example values -/

/-- Trivial formatting environment for concrete evaluations. -/
def env0 : Env := { strftime := fun _ _ => "", fmtBytes := fun _ => "" }

/-- A retrieved batch with the given id and no optional data. -/
def emptyBatch (i : String) : BatchDetail :=
  { id := i, status := "completed", endpoint := "/v1/responses",
    request_counts := ⟨0, 0, 0⟩, input_file_id := none, output_file_id := none,
    error_data := [], created_at := none, in_progress_at := none,
    finalizing_at := none, completed_at := none, failed_at := none,
    expired_at := none, cancelling_at := none, cancelled_at := none }

/-- A retrieved file detail used in concrete runs. -/
def fileDetail0 : FileDetail :=
  { id := "file-123", filename := some "results.jsonl", purpose := "batch",
    bytes := 10, created_at := 0 }

/-- Screen state after resolving batch `b2` (current selection `b2`). -/
def staleState : ViewState :=
  (retrieve_batch_worker env0 (fun _ => none) (Except.ok (emptyBatch "b2")) initViewState).1

/-- Screen state after switching to Files mode and resolving file
`file-123`. -/
def resolvedFileState : ViewState :=
  (retrieve_file_worker env0 "file-123" (Except.ok fileDetail0)
    (action_list_files initViewState).1).1

/-! ### Claim C1 -/

/-- Claim C1 counterexample: with batch `b2` as the current selection, a
detail-fetch completion for the different row key `b1` (a stale
completion in the claim's terms) is applied anyway: `current_batch_id`
is overwritten from `b2` to `b1`, so View State is not left unchanged.
The source has no generation counter and never compares the completed
key against the current selection. -/
theorem stale_detail_completion_changes_state :
    staleState.current_batch_id = some "b2" ∧
    ("b1" : String) ≠ "b2" ∧
    (retrieve_batch_worker env0 (fun _ => none) (Except.ok (emptyBatch "b1"))
        staleState).1.current_batch_id = some "b1" := by
  exact ⟨rfl, by decide, rfl⟩

/-- Claim C1 amended: a successful detail-fetch completion mutates View
State unconditionally — for every prior state it overwrites the selected
batch id with the payload's id, enables the cancel action, sets download
eligibility from the payload alone, and rewrites the details view to a
rendering that does not depend on the prior state.  No generation or
row-key check exists; stale completions are suppressed only by the
framework's cancellation of superseded exclusive workers, not by this
component. -/
theorem detail_completion_applies_unconditionally (env : Env)
    (fileMeta : String → Option String) (b : BatchDetail) (st : ViewState) :
    (retrieve_batch_worker env fileMeta (Except.ok b) st).1.current_batch_id = some b.id ∧
    (retrieve_batch_worker env fileMeta (Except.ok b) st).1.btn_cancel_disabled = false ∧
    (retrieve_batch_worker env fileMeta (Except.ok b) st).1.btn_download_disabled
      = !(pyTruthyOpt b.output_file_id) ∧
    (retrieve_batch_worker env fileMeta (Except.ok b) st).1.details_view
      = (retrieve_batch_worker env fileMeta (Except.ok b) initViewState).1.details_view := by
  refine ⟨rfl, rfl, ?_, ?_⟩
  · by_cases h : pyTruthyOpt b.output_file_id <;> simp [retrieve_batch_worker, h]
  · by_cases h : pyTruthyOpt b.output_file_id <;> simp [retrieve_batch_worker, h]

/-! ### Claim C2 -/

/-- Claim C2 counterexample: after resolving file `file-123` in Files mode
the download action is enabled and the derived file id and name are set;
switching modes via `action_list_batches` leaves all three untouched,
so the SelectionContext is not cleared and the download action stays
enabled. -/
theorem mode_switch_keeps_download_state :
    resolvedFileState.btn_download_disabled = false ∧
    (action_list_batches resolvedFileState).1.btn_download_disabled = false ∧
    (action_list_batches resolvedFileState).1.current_output_file_id = some "file-123" ∧
    (action_list_batches resolvedFileState).1.current_file_name = some "results.jsonl" := by
  exact ⟨rfl, rfl, rfl, by decide⟩

/-- Claim C2 amended: a mode switch disables the cancel action, clears the
selected batch id and the cached rows before dispatching the listing
fetch (switching to Batches also disables delete; switching to Files
also resets the details view), but the derived file id, derived file
name and the download action's eligibility are carried over unchanged
(and so is delete eligibility when switching to Files, and the details
view when switching to Batches). -/
theorem mode_switch_partial_reset (st : ViewState) :
    ((action_list_batches st).1.btn_cancel_disabled = true ∧
     (action_list_batches st).1.current_batch_id = none ∧
     (action_list_batches st).1.btn_delete_disabled = true ∧
     (action_list_batches st).1.table_rows = [] ∧
     (action_list_batches st).1.current_output_file_id = st.current_output_file_id ∧
     (action_list_batches st).1.current_file_name = st.current_file_name ∧
     (action_list_batches st).1.btn_download_disabled = st.btn_download_disabled ∧
     (action_list_batches st).1.details_view = st.details_view) ∧
    ((action_list_files st).1.btn_cancel_disabled = true ∧
     (action_list_files st).1.current_batch_id = none ∧
     (action_list_files st).1.table_rows = [] ∧
     (action_list_files st).1.details_view = "Select an item to view details." ∧
     (action_list_files st).1.current_output_file_id = st.current_output_file_id ∧
     (action_list_files st).1.current_file_name = st.current_file_name ∧
     (action_list_files st).1.btn_download_disabled = st.btn_download_disabled ∧
     (action_list_files st).1.btn_delete_disabled = st.btn_delete_disabled) := by
  exact ⟨⟨rfl, rfl, rfl, rfl, rfl, rfl, rfl, rfl⟩, ⟨rfl, rfl, rfl, rfl, rfl, rfl, rfl, rfl⟩⟩

/-! ### Claim C3 -/

/-- Claim C3: after a successful batch-detail resolution the download
action is enabled exactly when `output_file_id` is present (non-null and
non-empty), the cancel action is enabled unconditionally — for every
payload, hence regardless of the batch's reported status — and
`action_list_files` (the switch to Files mode) disables the cancel
action for every prior state. -/
theorem batch_detail_action_eligibility (env : Env) (fileMeta : String → Option String)
    (b : BatchDetail) (st st' : ViewState) :
    ((retrieve_batch_worker env fileMeta (Except.ok b) st).1.btn_download_disabled = false ↔
      pyTruthyOpt b.output_file_id = true) ∧
    (retrieve_batch_worker env fileMeta (Except.ok b) st).1.btn_cancel_disabled = false ∧
    (action_list_files st').1.btn_cancel_disabled = true := by
  refine ⟨?_, rfl, rfl⟩
  by_cases h : pyTruthyOpt b.output_file_id <;> simp [retrieve_batch_worker, h]

/-! ### Claim C4 -/

/-- Claim C4: in the delete flow for a resolved file with key `k`
(`current_output_file_id = some k`), a confirmation-modal dismissal with
`true` produces exactly one delete call, for `k`, followed by the
Files-mode re-list dispatch; a dismissal with `false` produces zero
delete calls, no re-list, and leaves the state unchanged (only the
cancellation notification is shown). -/
theorem delete_flow_confirm_and_cancel (st : ViewState) (k : String) (d : Bool)
    (h : st.current_output_file_id = some k) (hk : k ≠ "") :
    (∃ st' msgEff, delete_file_worker st true (Except.ok d) =
        (st', [Effect.apiDeleteFile k, msgEff,
               Effect.notify "Loading files...", Effect.dispatchListFiles]) ∧
        st'.table_mode = Mode.files) ∧
    delete_file_worker st false (Except.ok d) =
      (st, [Effect.notify "File deletion cancelled."]) := by
  constructor
  · refine ⟨(action_list_files st).1,
      (if d then Effect.notify ("File " ++ pyOrOpt st.current_file_name k ++ " deleted successfully.")
       else Effect.errorNotify ("Failed to delete file " ++ pyOrOpt st.current_file_name k ++ ".")),
      ?_, rfl⟩
    simp [delete_file_worker, h, hk, action_list_files]
  · rfl

/-- Claim C4 witness: the concrete flow of the spec scenario, file key
`file-123` resolved in Files mode. -/
theorem delete_flow_confirm_and_cancel_witness :
    (∃ st' msgEff, delete_file_worker resolvedFileState true (Except.ok true) =
        (st', [Effect.apiDeleteFile "file-123", msgEff,
               Effect.notify "Loading files...", Effect.dispatchListFiles]) ∧
        st'.table_mode = Mode.files) ∧
    delete_file_worker resolvedFileState false (Except.ok true) =
      (resolvedFileState, [Effect.notify "File deletion cancelled."]) :=
  delete_flow_confirm_and_cancel resolvedFileState "file-123" true rfl (by decide)

/-! ### Claim C5 -/

/-- Claim C5: for every non-empty payload (every non-cancelled
`CreateBatchModal` dismissal — the cancelled sentinel is `""`) whose
create call succeeds, `create_batch_worker` emits exactly one
create-batch operation, followed by exactly one Batches-mode re-list
dispatch, in that order. -/
theorem create_dismiss_one_create_then_relist (st : ViewState) (payload bid : String)
    (h : payload ≠ "") :
    ∃ st' ep fid m1 m2,
      create_batch_worker st payload (Except.ok bid) =
        (st', [Effect.notify m1, Effect.apiCreateBatch ep fid "24h", Effect.notify m2,
               Effect.notify "Loading batches...", Effect.dispatchListBatches]) ∧
      st'.table_mode = Mode.batches := by
  refine ⟨(action_list_batches st).1,
    resolveEndpoint (parseCreatePayload payload).1,
    (if pyStrip (parseCreatePayload payload).2 = "" then none
     else some (pyStrip (parseCreatePayload payload).2)),
    "Creating batch (endpoint=" ++ resolveEndpoint (parseCreatePayload payload).1 ++ ")...",
    "Batch created: " ++ bid, ?_, rfl⟩
  simp [create_batch_worker, h, action_list_batches]

/-- Claim C5 witness: a concrete modal dismissal with endpoint
`/v1/responses` and input file `f1`. -/
theorem create_dismiss_one_create_then_relist_witness :
    ∃ st' ep fid m1 m2,
      create_batch_worker initViewState
          (createModalDismissValue (some "/v1/responses") "f1") (Except.ok "b9") =
        (st', [Effect.notify m1, Effect.apiCreateBatch ep fid "24h", Effect.notify m2,
               Effect.notify "Loading batches...", Effect.dispatchListBatches]) ∧
      st'.table_mode = Mode.batches :=
  create_dismiss_one_create_then_relist initViewState
    (createModalDismissValue (some "/v1/responses") "f1") "b9" (by decide)

/-! ### Claim C6 -/

/-- Claim C6 counterexample: for the resolved filename `a/b` the output
path is not the downloads directory joined with that filename plus the
extension (`downloads/a/b.jsonl`); the worker first replaces every `/`
by `_`, yielding `downloads/a_b.jsonl`. -/
theorem download_path_not_plain_join :
    download_out_path "a/b" = "downloads/a_b.jsonl" ∧
    pyPathJoin DOWNLOAD_DIR "a/b" ++ ".jsonl" = "downloads/a/b.jsonl" ∧
    ("downloads/a_b.jsonl" : String) ≠ "downloads/a/b.jsonl" := by
  decide

/-- Claim C6 amended: the download output path is the fixed relative
downloads directory joined with the resolved filename after replacing
every `/` by `_`, with the `.jsonl` extension appended exactly when the
sanitized name does not already end in `.jsonl`; `results` yields
`downloads/results.jsonl` and `results.jsonl` stays `results.jsonl`,
never double-suffixed. -/
theorem download_path_join_sanitized :
    (∀ file_name : String,
      download_out_path file_name =
        if pyEndsWith (sanitizeSlashes file_name) ".jsonl" = true
        then DOWNLOAD_DIR ++ "/" ++ sanitizeSlashes file_name
        else DOWNLOAD_DIR ++ "/" ++ sanitizeSlashes file_name ++ ".jsonl") ∧
    download_out_path "results" = "downloads/results.jsonl" ∧
    download_out_path "results.jsonl" = "downloads/results.jsonl" ∧
    download_out_path "a/b" = "downloads/a_b.jsonl" := by
  refine ⟨?_, by decide, by decide, by decide⟩
  intro file_name
  unfold download_out_path pyPathJoin
  dsimp only
  rw [pyStartsWith_sanitize_slash]
  simp only [Bool.false_eq_true, if_false]
  rw [show pyEndsWith DOWNLOAD_DIR "/" = false from by decide]
  simp only [Bool.false_eq_true, if_false]
  rw [pyEndsWith_dirJoin]

/-! ### Claim C7 -/

/-- Claim C7: a `ProfileSelected` message is posted if and only if the
selected profile's `api_key` entry exists, is non-empty, and starts with
the expected `sk-` prefix; in every other case the handler swallows the
error (`none`: inline error shown, selection loop continues, no crash),
and a posted message carries the profile name and a well-formed key. -/
theorem profile_selection_iff_valid_key (config : List (String × List (String × String)))
    (profile_name : String) :
    ((∃ msg, selectProfile config profile_name = some msg) ↔
      (∃ sect api_key, assocLookup config profile_name = some sect ∧
        assocLookup sect "api_key" = some api_key ∧ api_key ≠ "" ∧
        pyStartsWith api_key "sk-" = true)) ∧
    (∀ msg, selectProfile config profile_name = some msg →
      msg.profile_name = profile_name ∧ msg.api_key ≠ "" ∧
      pyStartsWith msg.api_key "sk-" = true) := by
  have key : ∀ msg, selectProfile config profile_name = some msg →
      ∃ sect, assocLookup config profile_name = some sect ∧
        assocLookup sect "api_key" = some msg.api_key ∧
        msg.profile_name = profile_name ∧ msg.api_key ≠ "" ∧
        pyStartsWith msg.api_key "sk-" = true := by
    intro msg hmsg
    unfold selectProfile at hmsg
    cases h1 : assocLookup config profile_name with
    | none => rw [h1] at hmsg; cases hmsg
    | some sect =>
      rw [h1] at hmsg
      dsimp only at hmsg
      cases h2 : assocLookup sect "api_key" with
      | none => rw [h2] at hmsg; cases hmsg
      | some api_key =>
        rw [h2] at hmsg
        dsimp only at hmsg
        by_cases h3 : ((api_key == "") || !(pyStartsWith api_key "sk-")) = true
        · rw [if_pos h3] at hmsg; cases hmsg
        · rw [if_neg h3] at hmsg
          cases hmsg
          simp only [Bool.or_eq_true, beq_iff_eq, Bool.not_eq_true',
            Bool.not_eq_false, not_or] at h3
          exact ⟨sect, rfl, h2, rfl, h3.1, h3.2⟩
  constructor
  · constructor
    · rintro ⟨msg, hmsg⟩
      obtain ⟨sect, h1, h2, -, h4, h5⟩ := key msg hmsg
      exact ⟨sect, msg.api_key, h1, h2, h4, h5⟩
    · rintro ⟨sect, api_key, h1, h2, h3, h4⟩
      refine ⟨⟨profile_name, api_key⟩, ?_⟩
      have hc : ((api_key == "") || !(pyStartsWith api_key "sk-")) = false := by
        simp [h3, h4]
      simp [selectProfile, h1, h2, hc]
  · intro msg hmsg
    obtain ⟨-, -, -, ha, hb, hc⟩ := key msg hmsg
    exact ⟨ha, hb, hc⟩

/-- Config fixture: one valid profile and one with a malformed token. -/
def config0 : List (String × List (String × String)) :=
  [("work", [("api_key", "sk-abc123")]), ("broken", [("api_key", "token")])]

/-- Claim C7 witness: the valid profile of `config0` is accepted. -/
theorem profile_selection_iff_valid_key_witness :
    ∃ msg, selectProfile config0 "work" = some msg :=
  (profile_selection_iff_valid_key config0 "work").1.mpr
    ⟨[("api_key", "sk-abc123")], "sk-abc123", rfl, rfl, by decide, by decide⟩

/-! ### Claim C8 -/

/-- Batch fixture for the timestamp-ordering scenario: events gathered in
field order `created(300) = C`, `in_progress(100) = A`,
`finalizing(200) = B`. -/
def c8batch : BatchDetail :=
  { emptyBatch "b1" with
    created_at := some 300, in_progress_at := some 100, finalizing_at := some 200 }

/-- Claim C8: the rendered timestamp sequence is sorted ascending by epoch
time for every gathered event list, and for gathered epochs
`[300, 100, 200]` with labels `[C, A, B]` the rendered order is
`[A(100), B(200), C(300)]`. -/
theorem timestamps_render_sorted :
    (∀ l : List TSEvent, List.Sorted tsLe (sortTimestamps l)) ∧
    gatherTimestamps env0 c8batch =
      [⟨"created", 300, ""⟩, ⟨"in_progress", 100, ""⟩, ⟨"finalizing", 200, ""⟩] ∧
    sortTimestamps (gatherTimestamps env0 c8batch) =
      [⟨"in_progress", 100, ""⟩, ⟨"finalizing", 200, ""⟩, ⟨"created", 300, ""⟩] := by
  exact ⟨fun l => List.sorted_insertionSort tsLe l, by decide, by decide⟩

/-! ### Claim C9 -/

/-- Claim C9: dismissing the creation modal via `Create` with no endpoint
selected hands the worker the endpoint `/responses` — a value outside
the five enumerated choices and distinct from the worker's own fallback
`/v1/responses`, which is applied exactly when the payload's (stripped)
endpoint part is empty. -/
theorem create_modal_default_endpoint_mismatch :
    resolveEndpoint (parseCreatePayload (createModalDismissValue none "")).1 = "/responses" ∧
    "/responses" ∉ endpointChoices ∧
    ("/responses" : String) ≠ "/v1/responses" ∧
    (∀ e : String, resolveEndpoint e = "/v1/responses" ↔
      (pyStrip e = "" ∨ pyStrip e = "/v1/responses")) := by
  refine ⟨by decide, by decide, by decide, ?_⟩
  intro e
  by_cases h : pyStrip e = "" <;> simp [resolveEndpoint, h]

/-! ### Claim C10 -/

/-- Claim C10: for a resolved file id, the download worker decodes the
remote content, splits it into lines and parses every line before any
file write: if some line fails to parse the trace ends in a single error
notification and contains no file-write effect, while on success the
written lines are the re-serialized parsed objects — never the raw
remote bytes. -/
theorem download_parses_before_write {J : Type} (parse : String → Except String J)
    (ser : J → String) (st : ViewState) (fid raw : String)
    (h : st.current_output_file_id = some fid) (hfid : fid ≠ "") :
    ((∃ l ∈ downloadLinesOf raw, ∀ j, parse l ≠ Except.ok j) →
      ∃ emsg, download_output_worker parse ser st (Except.ok raw) =
        (st, [Effect.makeDirs DOWNLOAD_DIR,
              Effect.notify ("Downloading " ++ pyOrOpt st.current_file_name fid ++ "..."),
              Effect.errorNotify ("Error: " ++ emsg)])) ∧
    (∀ objs, exMapParse parse (downloadLinesOf raw) = Except.ok objs →
      download_output_worker parse ser st (Except.ok raw) =
        (st, [Effect.makeDirs DOWNLOAD_DIR,
              Effect.notify ("Downloading " ++ pyOrOpt st.current_file_name fid ++ "..."),
              Effect.fileWrite (download_out_path (pyOrOpt st.current_file_name fid))
                (objs.map (fun o => ser o ++ "\n")),
              Effect.notify ("Saved to " ++ download_out_path (pyOrOpt st.current_file_name fid))])) := by
  constructor
  · intro hfail
    obtain ⟨e, he⟩ := exMapParse_error_of_fail parse (downloadLinesOf raw) hfail
    exact ⟨e, by simp [download_output_worker, h, hfid, he]⟩
  · intro objs hobjs
    simp [download_output_worker, h, hfid, hobjs]

/-- Parser fixture for the download witness: line `x` fails, everything
else parses to itself. -/
def c10parse (s : String) : Except String String :=
  if s = "x" then Except.error "bad line" else Except.ok s

/-- Screen state with file `f1` (filename `results`) resolved. -/
def c10state : ViewState :=
  { initViewState with current_output_file_id := some "f1", current_file_name := some "results" }

/-- Claim C10 witness: content `a\nx` (second line unparseable) yields an
error notification and no write; content `a\nb` is written re-serialized
line by line. -/
theorem download_parses_before_write_witness :
    (∃ emsg, download_output_worker c10parse id c10state (Except.ok "a\nx") =
      (c10state, [Effect.makeDirs DOWNLOAD_DIR,
                  Effect.notify "Downloading results...",
                  Effect.errorNotify ("Error: " ++ emsg)])) ∧
    download_output_worker c10parse id c10state (Except.ok "a\nb") =
      (c10state, [Effect.makeDirs DOWNLOAD_DIR,
                  Effect.notify "Downloading results...",
                  Effect.fileWrite "downloads/results.jsonl" ["a\n", "b\n"],
                  Effect.notify "Saved to downloads/results.jsonl"]) := by
  constructor
  · obtain ⟨emsg, he⟩ :=
      (download_parses_before_write c10parse id c10state "f1" "a\nx" rfl (by decide)).1
        ⟨"x", by decide, by intro j; simp [c10parse]⟩
    exact ⟨emsg, by rw [he]; rfl⟩
  · exact (download_parses_before_write c10parse id c10state "f1" "a\nb" rfl (by decide)).2
      ["a", "b"] rfl
